import Mathlib

/-
  Shallow embedding of the provider abstraction of the ai-cli repository:
  content generators (Claude / Ollama), the unified chat facade and its
  backend adapters, provider auto-configuration, and the content-generator
  factory. Definitions mirror the TypeScript source; JavaScript truthiness
  of `x || d` on strings and numbers is modelled explicitly.
-/

namespace AiCli

/-- JavaScript `x || d` for an optional string: `undefined` and `""` are falsy. -/
def jsOrS (x : Option String) (d : String) : String :=
  match x with
  | none => d
  | some s => if s = "" then d else s

/-- JavaScript `x || d` for an optional number: `undefined` and `0` are falsy. -/
def jsOrN (x : Option Nat) (d : Nat) : Nat :=
  match x with
  | none => d
  | some n => if n = 0 then d else n

/-- JavaScript `x || 0` for an optional number. -/
def orZero (x : Option Nat) : Nat := x.getD 0

/-- Model of `Math.ceil(n / 3.5)` on a natural length `n` (exact: 2n/7 rounded up). -/
def ceil35 (n : Nat) : Nat := (2 * n + 6) / 7

/-- Model of `Math.ceil(n / 4)` on a natural length `n`. -/
def ceil4 (n : Nat) : Nat := (n + 3) / 4

/-- JavaScript `s.startsWith(p)`. -/
def jsStartsWith (s p : String) : Bool := p.data.isPrefixOf s.data

/-- Contiguous-sublist test on character lists. -/
def listIsInfix (n : List Char) : List Char → Bool
  | [] => n.isEmpty
  | c :: t => n.isPrefixOf (c :: t) || listIsInfix n t

/-- Substring test: `needle` occurs contiguously inside `hay`. -/
def strContains (hay needle : String) : Bool := listIsInfix needle.data hay.data

/-- JavaScript `Array.prototype.join(sep)`. -/
def jsJoin (sep : String) : List String → String
  | [] => ""
  | [x] => x
  | x :: y :: xs => x ++ sep ++ jsJoin sep (y :: xs)

/-- One part of a generation-request turn: a text part (`{ text: s }`) or a
non-text part. -/
inductive GPart
  | text (s : String)
  | other
deriving DecidableEq

/-- One turn of a generation request (`{ parts: [...] }`). -/
structure GContent where
  parts : List GPart
deriving DecidableEq

/-- A generation request (`{ contents: [...] }`). -/
structure GenRequest where
  contents : List GContent
deriving DecidableEq

/-- The parts kept by `extractPrompt`: flatten all parts across turns and keep
those where `'text' in part && part.text`, so non-text parts and parts with
empty text are both dropped. -/
def keptTexts (req : GenRequest) : List String :=
  (req.contents.map (fun c => c.parts)).flatten.filterMap (fun p =>
    match p with
    | GPart.text s => if s = "" then none else some s
    | GPart.other => none)

/-- The `extractPrompt` helper shared verbatim by `ClaudeContentGenerator` and
`OllamaContentGenerator`: the kept texts are joined with the two-character
separator backslash-n, exactly as the source writes `.join('\x5c\x5cn')`
inside a single-quoted literal. -/
def extractPrompt (req : GenRequest) : String :=
  jsJoin "\\n" (keptTexts req)

/-- Token usage block of a generation response. -/
structure UsageMetadata where
  promptTokenCount : Nat
  candidatesTokenCount : Nat
  totalTokenCount : Nat
deriving DecidableEq

/-- One `{ text }` part of a generated candidate. -/
structure GenPart where
  text : String
deriving DecidableEq

/-- Content of a generated candidate. -/
structure GenContent where
  parts : List GenPart
  role : String
deriving DecidableEq

/-- One candidate of a generation response. -/
structure GenCandidate where
  content : GenContent
  finishReason : Option String
  index : Nat
deriving DecidableEq

/-- A generation response. -/
structure GenResponse where
  candidates : List GenCandidate
  usageMetadata : Option UsageMetadata
deriving DecidableEq

/-- Outcome of the provider HTTP call inside `generateContent`: network-level
rejection (including timeout), a non-2xx response (code throws, caught by the
same handler), or a parsed success body. -/
inductive FetchOutcome (α : Type)
  | netError (msg : String)
  | httpError (status : Nat) (body : String)
  | ok (data : α)
deriving DecidableEq

/-- Claude usage block as delivered (`usage.input_tokens`, `usage.output_tokens`),
each possibly absent. -/
structure ClaudeUsage where
  inputTokens : Option Nat
  outputTokens : Option Nat
deriving DecidableEq

/-- The fields of a parsed Claude success body that `generateContent` reads:
`data.content?.[0]?.text` and `data.usage`. -/
structure ClaudeGenData where
  firstText : Option String
  usage : Option ClaudeUsage
deriving DecidableEq

/-- Message of the error thrown on a non-ok Claude response in
`ClaudeContentGenerator.generateContent`. -/
def claudeHttpErrMsg (status : Nat) (body : String) : String :=
  "Claude API error: " ++ toString status ++ " - " ++ body

/-- Trailing fixed text of the Claude failure diagnostic (the source writes the
escape sequences inside a template literal with doubled backslashes, so they
are literal backslash-n characters, not newlines). -/
def claudeDiagSfx : String :=
  "\\n\\nTroubleshooting:\\n- Check CLAUDE_API_KEY\\n- Verify API key is valid\\n- Check network connectivity"

/-- Diagnostic text built in the catch branch of
`ClaudeContentGenerator.generateContent`. -/
def claudeDiagText (msg : String) : String :=
  "❌ Claude API Error: " ++ msg ++ claudeDiagSfx

/-- Synthesized response for a failed Claude `generateContent` call. -/
def claudeErrorResponse (msg : String) : GenResponse :=
  { candidates := [{ content := { parts := [{ text := claudeDiagText msg }], role := "model" },
                     finishReason := some ("STOP"), index := 0 }],
    usageMetadata := some { promptTokenCount := 0, candidatesTokenCount := 0, totalTokenCount := 0 } }

/-- `ClaudeContentGenerator.generateContent`, as a function of the request and
the provider-call outcome. -/
def claudeGenerateContent (req : GenRequest) (outcome : FetchOutcome ClaudeGenData) : GenResponse :=
  match outcome with
  | FetchOutcome.netError msg => claudeErrorResponse msg
  | FetchOutcome.httpError status body => claudeErrorResponse (claudeHttpErrMsg status body)
  | FetchOutcome.ok d =>
    let prompt := extractPrompt req
    let responseText := jsOrS d.firstText ("No response from Claude")
    { candidates := [{ content := { parts := [{ text := responseText }], role := "model" },
                       finishReason := some ("STOP"), index := 0 }],
      usageMetadata := some
        { promptTokenCount := jsOrN (d.usage.bind (fun u => u.inputTokens)) (ceil35 prompt.length),
          candidatesTokenCount := jsOrN (d.usage.bind (fun u => u.outputTokens)) (ceil35 responseText.length),
          totalTokenCount := orZero (d.usage.bind (fun u => u.inputTokens)) +
                             orZero (d.usage.bind (fun u => u.outputTokens)) } }

/-- The field of a parsed Ollama success body that `generateContent` reads
(`data.response`). -/
structure OllamaGenData where
  response : Option String
deriving DecidableEq

/-- Message of the error thrown on a non-ok Ollama response in
`OllamaContentGenerator.generateContent`. -/
def ollamaGenHttpErrMsg (status : Nat) : String :=
  "Ollama API error: " ++ toString status

/-- Trailing fixed text of the Ollama failure diagnostic. -/
def ollamaDiagSfx : String :=
  "\\n\\nTroubleshooting:\\n- Ensure Ollama is running: ollama serve\\n- Check model: ollama list"

/-- Diagnostic text built in the catch branch of
`OllamaContentGenerator.generateContent`. -/
def ollamaDiagText (msg : String) : String :=
  "❌ Ollama Error: " ++ msg ++ ollamaDiagSfx

/-- Synthesized response for a failed Ollama `generateContent` call. -/
def ollamaErrorResponse (msg : String) : GenResponse :=
  { candidates := [{ content := { parts := [{ text := ollamaDiagText msg }], role := "model" },
                     finishReason := some ("STOP"), index := 0 }],
    usageMetadata := some { promptTokenCount := 0, candidatesTokenCount := 0, totalTokenCount := 0 } }

/-- `OllamaContentGenerator.generateContent`, as a function of the request and
the provider-call outcome. -/
def ollamaGenerateContent (req : GenRequest) (outcome : FetchOutcome OllamaGenData) : GenResponse :=
  match outcome with
  | FetchOutcome.netError msg => ollamaErrorResponse msg
  | FetchOutcome.httpError status _ => ollamaErrorResponse (ollamaGenHttpErrMsg status)
  | FetchOutcome.ok d =>
    let prompt := extractPrompt req
    let responseText := jsOrS d.response ("No response from Ollama")
    let respStr := d.response.getD ""
    { candidates := [{ content := { parts := [{ text := responseText }], role := "model" },
                       finishReason := some ("STOP"), index := 0 }],
      usageMetadata := some
        { promptTokenCount := ceil4 prompt.length,
          candidatesTokenCount := ceil4 respStr.length,
          totalTokenCount := ceil4 (prompt ++ respStr).length } }

/-- `ClaudeContentGenerator.countTokens`: purely local estimate. -/
def claudeCountTokens (req : GenRequest) : Nat :=
  ceil35 (extractPrompt req).length

/-- `OllamaContentGenerator.countTokens`: purely local estimate. -/
def ollamaCountTokens (req : GenRequest) : Nat :=
  ceil4 (extractPrompt req).length

/-- Modelled from the spec (for comparison with `extractPrompt`): the flat
prompt obtained by concatenating all text parts across all turns joined by
newline, non-text parts ignored. -/
def specFlatPrompt (req : GenRequest) : String :=
  jsJoin "\n" ((req.contents.map (fun c => c.parts)).flatten.filterMap (fun p =>
    match p with
    | GPart.text s => some s
    | GPart.other => none))

/-- C1: on any provider failure (network error / timeout, or non-2xx status),
`generateContent` of both generators resolves — it returns a response with
exactly one candidate whose single text part starts with the diagnostic
marker, and whose usage counts are all zero. -/
theorem c1_generateContent_failure_diagnostic :
    ∀ (req : GenRequest) (msg : String) (status : Nat) (body : String),
      (∀ r ∈ [claudeGenerateContent req (FetchOutcome.netError msg),
              claudeGenerateContent req (FetchOutcome.httpError status body),
              ollamaGenerateContent req (FetchOutcome.netError msg),
              ollamaGenerateContent req (FetchOutcome.httpError status body)],
        r.candidates.length = 1 ∧
        r.usageMetadata = some { promptTokenCount := 0, candidatesTokenCount := 0, totalTokenCount := 0 } ∧
        ∃ c rest, r.candidates = [c] ∧ c.content.parts = [{ text := "❌" ++ rest }]) := by
  intro req msg status body r hr
  have hmk : ∀ m : String,
      claudeDiagText m = "❌" ++ (" Claude API Error: " ++ (m ++ claudeDiagSfx)) := by
    intro m
    have h1 : ("❌ Claude API Error: " : String) = "❌" ++ " Claude API Error: " := by decide
    unfold claudeDiagText
    rw [h1, String.append_assoc, String.append_assoc]
  have hmo : ∀ m : String,
      ollamaDiagText m = "❌" ++ (" Ollama Error: " ++ (m ++ ollamaDiagSfx)) := by
    intro m
    have h1 : ("❌ Ollama Error: " : String) = "❌" ++ " Ollama Error: " := by decide
    unfold ollamaDiagText
    rw [h1, String.append_assoc, String.append_assoc]
  simp only [List.mem_cons, List.not_mem_nil, or_false] at hr
  rcases hr with h | h | h | h <;> subst h
  · exact ⟨rfl, rfl, _, " Claude API Error: " ++ (msg ++ claudeDiagSfx), rfl, by rw [hmk msg]⟩
  · exact ⟨rfl, rfl, _, " Claude API Error: " ++ (claudeHttpErrMsg status body ++ claudeDiagSfx),
      rfl, by rw [hmk (claudeHttpErrMsg status body)]⟩
  · exact ⟨rfl, rfl, _, " Ollama Error: " ++ (msg ++ ollamaDiagSfx), rfl, by rw [hmo msg]⟩
  · exact ⟨rfl, rfl, _, " Ollama Error: " ++ (ollamaGenHttpErrMsg status ++ ollamaDiagSfx),
      rfl, by rw [hmo (ollamaGenHttpErrMsg status)]⟩

/-- C1 witness: a concrete network failure on the cloud generator. -/
theorem c1_generateContent_failure_diagnostic_witness :
    (claudeGenerateContent (GenRequest.mk []) (FetchOutcome.netError ("net down"))).candidates.length = 1 ∧
    (claudeGenerateContent (GenRequest.mk []) (FetchOutcome.netError ("net down"))).usageMetadata =
      some (UsageMetadata.mk 0 0 0) ∧
    (∃ c rest,
      (claudeGenerateContent (GenRequest.mk []) (FetchOutcome.netError ("net down"))).candidates = [c] ∧
      c.content.parts = [GenPart.mk ("❌" ++ rest)]) :=
  c1_generateContent_failure_diagnostic (GenRequest.mk []) ("net down") 500 ("body")
    (claudeGenerateContent (GenRequest.mk []) (FetchOutcome.netError ("net down")))
    (List.mem_cons_self _ _)

/-- Length of a JavaScript join in terms of the member lengths. -/
theorem jsJoin_length (sep : String) : ∀ L : List String,
    (jsJoin sep L).length = (L.map String.length).sum + sep.length * (L.length - 1)
  | [] => by simp [jsJoin]
  | [x] => by simp [jsJoin]
  | x :: y :: xs => by
    have ih := jsJoin_length sep (y :: xs)
    show (x ++ sep ++ jsJoin sep (y :: xs)).length = _
    rw [String.length_append, String.length_append, ih]
    simp only [List.map_cons, List.sum_cons, List.length_cons, Nat.add_sub_cancel]
    ring

/-- C2 counterexample: for the local generator with prompt text `a` and
provider output `b`, the returned usage has `totalTokenCount = 1` while
`promptTokenCount + candidatesTokenCount = 2`, refuting
`total = prompt + completion` for a provider that supplies no total. -/
theorem c2_counterexample :
    ∃ u, (ollamaGenerateContent (GenRequest.mk [GContent.mk [GPart.text ("a")]])
        (FetchOutcome.ok (OllamaGenData.mk (some ("b"))))).usageMetadata = some u ∧
      u.totalTokenCount ≠ u.promptTokenCount + u.candidatesTokenCount := by
  exact ⟨_, rfl, by decide⟩

/-- C2 amended: the cloud generator satisfies `total = prompt + completion`
exactly when the provider supplies (nonzero) usage counts; when the provider
supplies no usage counts the cloud generator returns `totalTokenCount = 0`
alongside nonzero estimates, and the local generator always returns
`totalTokenCount = ceil((promptLen + responseLen)/4)`, which is not in general
`promptTokenCount + candidatesTokenCount`. -/
theorem c2_amended :
    (∀ (req : GenRequest) (d : ClaudeGenData) (i o : Nat), i ≠ 0 → o ≠ 0 →
       d.usage = some (ClaudeUsage.mk (some i) (some o)) →
       ∃ u, (claudeGenerateContent req (FetchOutcome.ok d)).usageMetadata = some u ∧
         u.promptTokenCount = i ∧ u.candidatesTokenCount = o ∧
         u.totalTokenCount = u.promptTokenCount + u.candidatesTokenCount)
    ∧ (∀ (req : GenRequest) (d : ClaudeGenData), d.usage = none →
       ∃ u, (claudeGenerateContent req (FetchOutcome.ok d)).usageMetadata = some u ∧
         u.promptTokenCount = ceil35 (extractPrompt req).length ∧
         u.candidatesTokenCount = ceil35 (jsOrS d.firstText ("No response from Claude")).length ∧
         u.totalTokenCount = 0)
    ∧ (∀ (req : GenRequest) (d : OllamaGenData),
       ∃ u, (ollamaGenerateContent req (FetchOutcome.ok d)).usageMetadata = some u ∧
         u.promptTokenCount = ceil4 (extractPrompt req).length ∧
         u.candidatesTokenCount = ceil4 (d.response.getD "").length ∧
         u.totalTokenCount = ceil4 ((extractPrompt req).length + (d.response.getD "").length)) := by
  refine ⟨?_, ?_, ?_⟩
  · intro req d i o hi ho hd
    refine ⟨_, rfl, ?_, ?_, ?_⟩ <;> simp [claudeGenerateContent, hd, jsOrN, orZero, hi, ho]
  · intro req d hd
    refine ⟨_, rfl, ?_, ?_, ?_⟩ <;> simp [claudeGenerateContent, hd, jsOrN, orZero]
  · intro req d
    refine ⟨_, rfl, ?_, ?_, ?_⟩ <;>
      simp [ollamaGenerateContent, jsOrN, orZero, String.length_append]

/-- C2 amended witness: concrete cloud call with usage counts 3 and 5. -/
theorem c2_amended_witness :
    ∃ u, (claudeGenerateContent (GenRequest.mk [])
        (FetchOutcome.ok (ClaudeGenData.mk (some ("x"))
          (some (ClaudeUsage.mk (some 3) (some 5)))))).usageMetadata = some u ∧
      u.promptTokenCount = 3 ∧ u.candidatesTokenCount = 5 ∧
      u.totalTokenCount = u.promptTokenCount + u.candidatesTokenCount :=
  c2_amended.1 (GenRequest.mk []) (ClaudeGenData.mk (some ("x")) (some (ClaudeUsage.mk (some 3) (some 5))))
    3 5 (by decide) (by decide) rfl

/-- C3 counterexample: for a request with two text parts `a` and `b`, the cloud
`countTokens` returns 2, but `ceil(L / 3.5)` for the spec-side flat prompt
(text parts joined by a real newline) is 1 — the code joins with the
two-character backslash-n sequence, not with a newline. -/
theorem c3_counterexample :
    claudeCountTokens (GenRequest.mk [GContent.mk [GPart.text ("a"), GPart.text ("b")]]) ≠
      ceil35 (specFlatPrompt (GenRequest.mk [GContent.mk [GPart.text ("a"), GPart.text ("b")]])).length := by
  decide

/-- C3 amended: `countTokens` performs no network call and returns
`ceil(L / k)` with `k = 3.5` (cloud) and `k = 4` (local), where `L` counts the
non-empty text parts joined by the two-character backslash-n separator: the sum
of their lengths plus twice the number of separators. -/
theorem c3_amended :
    ∀ req : GenRequest,
      claudeCountTokens req =
        ceil35 (((keptTexts req).map String.length).sum + 2 * ((keptTexts req).length - 1)) ∧
      ollamaCountTokens req =
        ceil4 (((keptTexts req).map String.length).sum + 2 * ((keptTexts req).length - 1)) := by
  intro req
  have h := jsJoin_length "\\n" (keptTexts req)
  have h2 : ("\\n" : String).length = 2 := by decide
  rw [h2] at h
  exact ⟨by rw [claudeCountTokens, extractPrompt, h], by rw [ollamaCountTokens, extractPrompt, h]⟩

/-- Role of a chat message handled by the unified chat facade. -/
inductive Role
  | user
  | assistant
  | system
deriving DecidableEq

/-- A provider-neutral chat message. -/
structure ChatMessage where
  role : Role
  content : String
deriving DecidableEq

/-- The `msg.role === 'system'` test used by `ChatClient`. -/
def isSystemMsg (m : ChatMessage) : Bool :=
  match m.role with
  | Role.system => true
  | _ => false

/-- System prompt assembled by the Claude branch of `ChatClient.chat` /
`chatStream`: contents of the system-role messages joined with a newline. -/
def claudeSystemPrompt (msgs : List ChatMessage) : String :=
  jsJoin "\n" ((msgs.filter isSystemMsg).map (fun m => m.content))

/-- Turn list sent onward by the Claude branch: all non-system messages, in
input order. -/
def claudeTurns (msgs : List ChatMessage) : List ChatMessage :=
  msgs.filter (fun m => ! isSystemMsg m)

/-- The facade passes `systemPrompt || undefined` to `ClaudeClient.chat`. -/
def facadeSystemArg (msgs : List ChatMessage) : Option String :=
  let sp := claudeSystemPrompt msgs
  if sp = "" then none else some sp

/-- `ClaudeClient.chat` sets `body.system` only under `if (systemPrompt)`. -/
def claudeBodySystem (sysArg : Option String) : Option String :=
  match sysArg with
  | none => none
  | some s => if s = "" then none else some s

/-- The parts of the outgoing Claude request body governed by C4. -/
structure ClaudeWireBody where
  system : Option String
  messages : List ChatMessage
deriving DecidableEq

/-- Outgoing wire body produced by the facade plus the cloud adapter on a
non-streaming Claude chat call. -/
def claudeOutgoingBody (msgs : List ChatMessage) : ClaudeWireBody :=
  { system := claudeBodySystem (facadeSystemArg msgs), messages := claudeTurns msgs }

/-- C4 counterexample: for the input consisting of a single system message with
empty content, the input does contain a system message, yet the outgoing
`system` field is omitted instead of carrying the (empty) concatenation —
the field is dropped by JavaScript truthiness whenever the join is empty, not
only when no system message exists. -/
theorem c4_counterexample :
    [ChatMessage.mk Role.system ""].filter isSystemMsg ≠ [] ∧
    (claudeOutgoingBody [ChatMessage.mk Role.system ""]).system ≠
      some (claudeSystemPrompt [ChatMessage.mk Role.system ""]) := by
  decide

/-- C4 amended: no system-role message ever appears in the outgoing turn list
(which keeps the non-system messages in input order), and the outgoing
`system` field equals the newline-join of the system-message contents whenever
that join is non-empty, being omitted entirely whenever the join is empty — in
particular when there are no system messages; the example
`[{system,A},{user,B},{system,C}]` yields system `A\nC` and only the user
turn. -/
theorem c4_amended :
    (∀ msgs : List ChatMessage,
      (∀ m ∈ (claudeOutgoingBody msgs).messages, isSystemMsg m = false) ∧
      (claudeOutgoingBody msgs).messages = msgs.filter (fun m => ! isSystemMsg m) ∧
      (claudeOutgoingBody msgs).system =
        (if claudeSystemPrompt msgs = "" then none else some (claudeSystemPrompt msgs))) ∧
    claudeOutgoingBody
        [ChatMessage.mk Role.system ("A"), ChatMessage.mk Role.user ("B"),
         ChatMessage.mk Role.system ("C")] =
      ClaudeWireBody.mk (some ("A\nC")) [ChatMessage.mk Role.user ("B")] := by
  refine ⟨fun msgs => ⟨?_, rfl, ?_⟩, by decide⟩
  · intro m hm
    have := List.of_mem_filter hm
    simpa using this
  · show claudeBodySystem (facadeSystemArg msgs) = _
    unfold claudeBodySystem facadeSystemArg
    by_cases h : claudeSystemPrompt msgs = "" <;> simp [h]

/-- C4 amended witness: a concrete one-message input. -/
theorem c4_amended_witness :
    isSystemMsg (ChatMessage.mk Role.user ("hi")) = false ∧
    (claudeOutgoingBody [ChatMessage.mk Role.user ("hi")]).system =
      (if claudeSystemPrompt [ChatMessage.mk Role.user ("hi")] = "" then none
       else some (claudeSystemPrompt [ChatMessage.mk Role.user ("hi")])) :=
  ⟨(c4_amended.1 [ChatMessage.mk Role.user ("hi")]).1 (ChatMessage.mk Role.user ("hi")) (by decide),
   (c4_amended.1 [ChatMessage.mk Role.user ("hi")]).2.2⟩

/-- An Ollama streaming frame as consumed by the facade (`chunk.model`,
`chunk.message.content`, `chunk.done`). -/
structure OllamaStreamFrame where
  model : String
  content : String
  done : Bool
deriving DecidableEq

/-- A normalized `ChatStreamChunk` yielded by `ChatClient.chatStream`. -/
structure StreamChunk where
  content : String
  done : Bool
  model : String
  provider : String
deriving DecidableEq

/-- The Ollama branch of `ChatClient.chatStream`: every adapter frame is
re-emitted as a normalized chunk with `done` mirrored from the frame. -/
def ollamaFacadeChunks (frames : List OllamaStreamFrame) : List StreamChunk :=
  frames.map (fun f =>
    { content := f.content, done := f.done, model := f.model, provider := "ollama" })

/-- Frame types of the Claude SSE stream. -/
inductive ClaudeFrameType
  | message_start
  | content_block_start
  | content_block_delta
  | content_block_stop
  | message_delta
  | message_stop
deriving DecidableEq

/-- A Claude streaming frame as consumed by the facade (`chunk.type`,
`chunk.delta?.text`). -/
structure ClaudeStreamFrame where
  type : ClaudeFrameType
  deltaText : Option String
deriving DecidableEq

/-- The Claude branch of `ChatClient.chatStream` for a single frame:
`content_block_delta` with truthy `delta.text` yields a non-terminal chunk,
`message_stop` yields the empty terminal chunk, anything else yields nothing. -/
def claudeFacadeChunk (model : String) (f : ClaudeStreamFrame) : Option StreamChunk :=
  match f.type, f.deltaText with
  | ClaudeFrameType.content_block_delta, some t =>
      if t = "" then none
      else some { content := t, done := false, model := model, provider := "claude" }
  | ClaudeFrameType.message_stop, _ =>
      some { content := "", done := true, model := model, provider := "claude" }
  | _, _ => none

/-- The Claude branch of `ChatClient.chatStream` over a whole frame sequence. -/
def claudeFacadeChunks (model : String) (frames : List ClaudeStreamFrame) : List StreamChunk :=
  frames.filterMap (claudeFacadeChunk model)

/-- C5: for a well-formed provider stream — local: the final frame (and only
it) carries `done`; cloud: the single `message_stop` frame is last — the chunk
sequence yielded by the facade ends in a chunk with `done = true` (for the
cloud provider the empty-content terminal chunk), every earlier chunk has
`done = false`, and no chunk follows the terminal one. -/
theorem c5_stream_termination :
    (∀ (init : List OllamaStreamFrame) (lastF : OllamaStreamFrame),
       (∀ f ∈ init, f.done = false) → lastF.done = true →
       ∃ cs c, ollamaFacadeChunks (init ++ [lastF]) = cs ++ [c] ∧ c.done = true ∧
         ∀ x ∈ cs, x.done = false) ∧
    (∀ (model : String) (init : List ClaudeStreamFrame) (lastF : ClaudeStreamFrame),
       (∀ f ∈ init, f.type ≠ ClaudeFrameType.message_stop) →
       lastF.type = ClaudeFrameType.message_stop →
       ∃ cs, claudeFacadeChunks model (init ++ [lastF]) =
           cs ++ [StreamChunk.mk "" true model ("claude")] ∧
         ∀ x ∈ cs, x.done = false) := by
  constructor
  · intro init lastF hinit hlast
    refine ⟨ollamaFacadeChunks init,
      StreamChunk.mk lastF.content lastF.done lastF.model ("ollama"), ?_, hlast, ?_⟩
    · simp [ollamaFacadeChunks]
    · intro x hx
      rcases List.mem_map.mp hx with ⟨f, hf, hfx⟩
      rw [← hfx]
      exact hinit f hf
  · intro model init lastF hinit hlast
    refine ⟨claudeFacadeChunks model init, ?_, ?_⟩
    · have hstop : claudeFacadeChunk model lastF =
          some (StreamChunk.mk "" true model ("claude")) := by
        unfold claudeFacadeChunk
        rw [hlast]
      simp [claudeFacadeChunks, List.filterMap_append, hstop]
    · intro x hx
      rcases List.mem_filterMap.mp hx with ⟨f, hf, hfx⟩
      have hne := hinit f hf
      unfold claudeFacadeChunk at hfx
      rcases htype : f.type <;> rw [htype] at hfx <;> rcases hdt : f.deltaText <;>
        rw [hdt] at hfx <;> simp at hfx <;> try exact absurd htype hne
      rcases hfx with ⟨-, h⟩
      rw [← h]

/-- C5 witness: a concrete two-frame local stream and a concrete three-frame
cloud stream. -/
theorem c5_stream_termination_witness :
    (∃ cs c, ollamaFacadeChunks
        ([OllamaStreamFrame.mk ("m") ("hi") false] ++ [OllamaStreamFrame.mk ("m") "" true]) =
        cs ++ [c] ∧ c.done = true ∧ ∀ x ∈ cs, x.done = false) ∧
    (∃ cs, claudeFacadeChunks ("c")
        ([ClaudeStreamFrame.mk ClaudeFrameType.message_start none,
          ClaudeStreamFrame.mk ClaudeFrameType.content_block_delta (some ("hi"))] ++
         [ClaudeStreamFrame.mk ClaudeFrameType.message_stop none]) =
        cs ++ [StreamChunk.mk "" true ("c") ("claude")] ∧ ∀ x ∈ cs, x.done = false) :=
  ⟨c5_stream_termination.1 [OllamaStreamFrame.mk ("m") ("hi") false]
      (OllamaStreamFrame.mk ("m") "" true) (by decide) rfl,
   c5_stream_termination.2 ("c")
      [ClaudeStreamFrame.mk ClaudeFrameType.message_start none,
       ClaudeStreamFrame.mk ClaudeFrameType.content_block_delta (some ("hi"))]
      (ClaudeStreamFrame.mk ClaudeFrameType.message_stop none) (by decide) rfl⟩

/-- One line of the local adapter's newline-split stream body, classified by
what `JSON.parse` would do with it: blank (skipped by the `line.trim()`
guard), malformed (parse throws, warned and skipped), or a parsed frame. -/
inductive OllamaLine
  | blank
  | malformed (raw : String)
  | frame (f : OllamaStreamFrame)
deriving DecidableEq

/-- The line loop of `OllamaClient.chatStream`: non-blank lines are parsed,
parsed frames are yielded, malformed lines are warned about and skipped. -/
def ollamaParseLines : List OllamaLine → List OllamaStreamFrame
  | [] => []
  | OllamaLine.blank :: rest => ollamaParseLines rest
  | OllamaLine.malformed _ :: rest => ollamaParseLines rest
  | OllamaLine.frame f :: rest => f :: ollamaParseLines rest

/-- One line of the cloud adapter's SSE stream body: a line without the
`data: ` marker (ignored), the literal `data: [DONE]` terminator, a `data: `
line whose payload fails to parse (warned and skipped), or a parsed frame. -/
inductive ClaudeLine
  | nonData (raw : String)
  | doneMark
  | malformed (raw : String)
  | frame (f : ClaudeStreamFrame)
deriving DecidableEq

/-- The line loop of `ClaudeClient.chatStream`: only `data: ` lines are
considered, `data: [DONE]` ends the generator, malformed payloads are warned
about and skipped, parsed frames are yielded. -/
def claudeParseLines : List ClaudeLine → List ClaudeStreamFrame
  | [] => []
  | ClaudeLine.nonData _ :: rest => claudeParseLines rest
  | ClaudeLine.doneMark :: _ => []
  | ClaudeLine.malformed _ :: rest => claudeParseLines rest
  | ClaudeLine.frame f :: rest => f :: claudeParseLines rest

/-- C6: a malformed line contributes zero frames and zero chunks and does not
abort the stream — for both adapters, a body containing one malformed line
produces exactly the frame and chunk sequences of the same body with that line
removed. -/
theorem c6_malformed_line_skipped :
    ∀ (pre post : List OllamaLine) (raw : String) (model : String)
      (cpre cpost : List ClaudeLine) (craw : String),
      ollamaParseLines (pre ++ OllamaLine.malformed raw :: post) =
        ollamaParseLines (pre ++ post) ∧
      ollamaFacadeChunks (ollamaParseLines (pre ++ OllamaLine.malformed raw :: post)) =
        ollamaFacadeChunks (ollamaParseLines (pre ++ post)) ∧
      claudeParseLines (cpre ++ ClaudeLine.malformed craw :: cpost) =
        claudeParseLines (cpre ++ cpost) ∧
      claudeFacadeChunks model (claudeParseLines (cpre ++ ClaudeLine.malformed craw :: cpost)) =
        claudeFacadeChunks model (claudeParseLines (cpre ++ cpost)) := by
  have ho : ∀ (pre post : List OllamaLine) (raw : String),
      ollamaParseLines (pre ++ OllamaLine.malformed raw :: post) =
        ollamaParseLines (pre ++ post) := by
    intro pre post raw
    induction pre with
    | nil => rfl
    | cons l rest ih => cases l <;> simp [ollamaParseLines, ih]
  have hc : ∀ (cpre cpost : List ClaudeLine) (craw : String),
      claudeParseLines (cpre ++ ClaudeLine.malformed craw :: cpost) =
        claudeParseLines (cpre ++ cpost) := by
    intro cpre cpost craw
    induction cpre with
    | nil => rfl
    | cons l rest ih => cases l <;> simp [claudeParseLines, ih]
  intro pre post raw model cpre cpost craw
  exact ⟨ho pre post raw, by rw [ho pre post raw], hc cpre cpost craw,
    by rw [hc cpre cpost craw]⟩

/-- The observable parts of an HTTP response consumed by the adapters:
`ok`, `status`, `statusText`, the body as text, and the body parsed as JSON. -/
structure HttpResponse (α : Type) where
  ok : Bool
  status : Nat
  statusText : String
  bodyText : String
  json : α
deriving DecidableEq

/-- `OllamaClient.chat` after the fetch resolves: non-ok throws
`Ollama API error: status statusText`, ok returns the parsed body. -/
def ollamaChatCall {α : Type} (resp : HttpResponse α) : Except String α :=
  if resp.ok then Except.ok resp.json
  else Except.error ("Ollama API error: " ++ toString resp.status ++ " " ++ resp.statusText)

/-- `ClaudeClient.chat` after the fetch resolves: non-ok reads the body text
and throws `Claude API error: status statusText - body`, ok returns the
parsed body. -/
def claudeChatCall {α : Type} (resp : HttpResponse α) : Except String α :=
  if resp.ok then Except.ok resp.json
  else Except.error ("Claude API error: " ++ toString resp.status ++ " " ++
    resp.statusText ++ " - " ++ resp.bodyText)

/-- C7 counterexample: for a non-ok local response with status 400, status text
`Bad Request` and body `boom`, the thrown message is
`Ollama API error: 400 Bad Request`, which does not contain the response body
text — the local adapter error carries status and status text only. -/
theorem c7_counterexample :
    ollamaChatCall (HttpResponse.mk false 400 ("Bad Request") ("boom") (0 : Nat)) =
      Except.error ("Ollama API error: 400 Bad Request") ∧
    strContains ("Ollama API error: 400 Bad Request") ("boom") = false :=
  ⟨rfl, by decide⟩

/-- C7 amended: on a successful status neither adapter throws; on a non-success
status both adapters throw, the cloud error message carrying the status code
and the response body text, the local error message carrying the status code
and the HTTP status text (but not the body). -/
theorem c7_amended :
    (∀ (α : Type) (resp : HttpResponse α), resp.ok = true →
       ollamaChatCall resp = Except.ok resp.json ∧
       claudeChatCall resp = Except.ok resp.json) ∧
    (∀ (α : Type) (resp : HttpResponse α), resp.ok = false →
       (∃ m, claudeChatCall resp = Except.error m ∧
          (∃ p q, m = p ++ toString resp.status ++ q) ∧
          (∃ p, m = p ++ resp.bodyText)) ∧
       (∃ m, ollamaChatCall resp = Except.error m ∧
          (∃ p q, m = p ++ toString resp.status ++ q) ∧
          (∃ p, m = p ++ resp.statusText))) := by
  constructor
  · intro α resp hok
    constructor <;> simp [ollamaChatCall, claudeChatCall, hok]
  · intro α resp hok
    constructor
    · refine ⟨"Claude API error: " ++ toString resp.status ++ " " ++ resp.statusText ++
        " - " ++ resp.bodyText, by simp [claudeChatCall, hok], ?_, ?_⟩
      · exact ⟨"Claude API error: ", " " ++ resp.statusText ++ " - " ++ resp.bodyText,
          by simp [String.append_assoc]⟩
      · exact ⟨"Claude API error: " ++ toString resp.status ++ " " ++ resp.statusText ++ " - ",
          rfl⟩
    · refine ⟨"Ollama API error: " ++ toString resp.status ++ " " ++ resp.statusText,
        by simp [ollamaChatCall, hok], ?_, ?_⟩
      · exact ⟨"Ollama API error: ", " " ++ resp.statusText, by simp [String.append_assoc]⟩
      · exact ⟨"Ollama API error: " ++ toString resp.status ++ " ", rfl⟩

/-- C7 amended witness: concrete non-ok cloud and local responses. -/
theorem c7_amended_witness :
    (∃ m, claudeChatCall (HttpResponse.mk false 500 ("ISE") ("body text") (0 : Nat)) =
        Except.error m ∧
      (∃ p q, m = p ++ toString (HttpResponse.mk false 500 ("ISE") ("body text") (0 : Nat)).status ++ q) ∧
      (∃ p, m = p ++ (HttpResponse.mk false 500 ("ISE") ("body text") (0 : Nat)).bodyText)) ∧
    (∃ m, ollamaChatCall (HttpResponse.mk false 500 ("ISE") ("body text") (0 : Nat)) =
        Except.error m ∧
      (∃ p q, m = p ++ toString (HttpResponse.mk false 500 ("ISE") ("body text") (0 : Nat)).status ++ q) ∧
      (∃ p, m = p ++ (HttpResponse.mk false 500 ("ISE") ("body text") (0 : Nat)).statusText)) :=
  c7_amended.2 Nat (HttpResponse.mk false 500 ("ISE") ("body text") (0 : Nat)) rfl

/-- An installed-model descriptor from the local listing endpoint. -/
structure OllamaModelDesc where
  name : String
  size : Nat
  digest : String
deriving DecidableEq

/-- The fixed priority list of model-name prefixes in `selectBestModel`. -/
def modelPriorities : List String :=
  ["llama3.2", "llama3.1", "codellama", "llama3", "llama2", "phi3", "mistral", "qwen", "gemma"]

/-- `selectBestModel`: for each priority prefix in order, take the first listed
model whose name starts with it; if none matches, fall back to
`models[0]?.name || 'llama3.2'`. -/
def selectBestModel (models : List OllamaModelDesc) : String :=
  match modelPriorities.findSome? (fun p => models.find? (fun m => jsStartsWith m.name p)) with
  | some m => m.name
  | none => jsOrS (models.head?.map (fun m => m.name)) ("llama3.2")

/-- The process environment variables touched by provider resolution and the
facade factory. -/
structure Env where
  chatCliProvider : Option String
  ollamaModelVar : Option String
  ollamaHostVar : Option String
  ollamaUrlVar : Option String
  claudeApiKeyVar : Option String
  claudeModelVar : Option String
  claudeMaxTokensVar : Option String
deriving DecidableEq

/-- Shared default local-inference host. -/
def defaultOllamaHost : String := "http://localhost:11434"

/-- The environment writes on the success path of `tryAutoConfigureOllama`:
`CHAT_CLI_PROVIDER`, `OLLAMA_MODEL` and `OLLAMA_URL` (the host having been read
from `OLLAMA_URL || default` at the start of the function). -/
def autoConfigureOllamaEnv (env : Env) (models : List OllamaModelDesc) : Env :=
  let host := jsOrS env.ollamaUrlVar defaultOllamaHost
  { env with chatCliProvider := some ("ollama"),
             ollamaModelVar := some (selectBestModel models),
             ollamaUrlVar := some host }

/-- Diagnostic issued when the local instance is unreachable. -/
def ollamaSetupRequiredMsg : String :=
  "🦙 **Ollama Setup Required**\n\n❌ **Ollama is not running**\n\n🛠️ **To get started:**\n1. **Install Ollama**: https://ollama.ai\n2. **Start Ollama**: `ollama serve`\n3. **Download a model**: `ollama pull llama3.2`\n\nThen restart GrooveForge and select Ollama again."

/-- Diagnostic issued when the model listing is empty. -/
def ollamaNoModelsMsg : String :=
  "🦙 **Ollama Models Required**\n\n📥 **No models found**\n\n🛠️ **Download recommended models:**\n• `ollama pull llama3.2` - Latest Llama (recommended)\n• `ollama pull codellama` - Code-specialized model\n• `ollama pull phi3` - Smaller, faster model\n\nAfter downloading, restart GrooveForge and select Ollama again."

/-- Diagnostic issued when the model listing throws. -/
def ollamaConnErrorMsg (emsg : String) : String :=
  "🦙 **Ollama Connection Error**\n\n❌ " ++ emsg ++
    "\n\n🛠️ **Troubleshooting:**\n• Make sure Ollama is installed and running\n• Check if Ollama is accessible: `curl http://localhost:11434/api/tags`\n• Restart Ollama service: `ollama serve`"

/-- Result of `tryAutoConfigureOllama`. -/
inductive AutoConfigResult
  | success (env : Env)
  | failure (errMsg : String)
deriving DecidableEq

/-- `tryAutoConfigureOllama`, as a function of the environment, the liveness
probe result, and the model-listing outcome (`Except.error` is a thrown
listing error, handled by the surrounding catch). -/
def tryAutoConfigureOllama (env : Env) (available : Bool)
    (listOutcome : Except String (List OllamaModelDesc)) : AutoConfigResult :=
  if available = false then AutoConfigResult.failure ollamaSetupRequiredMsg
  else match listOutcome with
  | Except.error emsg => AutoConfigResult.failure (ollamaConnErrorMsg emsg)
  | Except.ok models =>
    if models.length = 0 then AutoConfigResult.failure ollamaNoModelsMsg
    else AutoConfigResult.success (autoConfigureOllamaEnv env models)

/-- Numeric value of a digit run. -/
def digitsVal (ds : List Char) : Nat :=
  ds.foldl (fun a c => a * 10 + (c.toNat - 48)) 0

/-- JavaScript `parseInt` (decimal): skip leading whitespace, optional sign,
longest digit run; `none` models `NaN`. -/
def jsParseInt (s : String) : Option Int :=
  let cs := s.data.dropWhile (fun c => c.isWhitespace)
  match cs with
  | [] => none
  | c :: rest =>
    if c = '-' then
      let ds := rest.takeWhile (fun x => x.isDigit)
      if ds.isEmpty then none else some (-(digitsVal ds : Int))
    else if c = '+' then
      let ds := rest.takeWhile (fun x => x.isDigit)
      if ds.isEmpty then none else some ((digitsVal ds : Int))
    else
      let ds := cs.takeWhile (fun x => x.isDigit)
      if ds.isEmpty then none else some ((digitsVal ds : Int))

/-- Local sub-config of the facade (host and model). -/
structure OllamaClientCfg where
  host : String
  model : String
deriving DecidableEq

/-- Cloud sub-config of the facade (API key, model, max tokens). -/
structure ClaudeClientCfg where
  apiKey : String
  model : String
  maxTokens : Option Int
deriving DecidableEq

/-- The facade configuration assembled by `ChatClient.createFromEnvironment`. -/
structure ChatClientConfig where
  provider : String
  ollamaCfg : Option OllamaClientCfg
  claudeCfg : Option ClaudeClientCfg
deriving DecidableEq

/-- `ChatClient.createFromEnvironment`: reads `CHAT_CLI_PROVIDER`, then for the
local provider `OLLAMA_MODEL || 'llama2'` and `OLLAMA_HOST || default`, and for
the cloud provider `CLAUDE_API_KEY` (required), `CLAUDE_MODEL` and
`CLAUDE_MAX_TOKENS` with defaults. -/
def createFromEnvironment (env : Env) : Except String ChatClientConfig :=
  let provider := jsOrS env.chatCliProvider ""
  if provider = "" then
    Except.error ("CHAT_CLI_PROVIDER environment variable is required")
  else if provider = "ollama" then
    Except.ok (ChatClientConfig.mk provider
      (some (OllamaClientCfg.mk (jsOrS env.ollamaHostVar defaultOllamaHost)
        (jsOrS env.ollamaModelVar ("llama2")))) none)
  else if provider = "claude" then
    match env.claudeApiKeyVar with
    | none => Except.error ("CLAUDE_API_KEY environment variable is required for Claude provider")
    | some k =>
      if k = "" then
        Except.error ("CLAUDE_API_KEY environment variable is required for Claude provider")
      else
        Except.ok (ChatClientConfig.mk provider none
          (some (ClaudeClientCfg.mk k (jsOrS env.claudeModelVar ("claude-3-sonnet-20240229"))
            (jsParseInt (jsOrS env.claudeMaxTokensVar ("4096"))))))
  else Except.error ("Unsupported provider: " ++ provider)

/-- List.findSome? ignores a leading run that yields `none` everywhere. -/
theorem findSome?_append_none {α β : Type} (f : α → Option β) (l₁ l₂ : List α)
    (h : ∀ a ∈ l₁, f a = none) : (l₁ ++ l₂).findSome? f = l₂.findSome? f := by
  induction l₁ with
  | nil => rfl
  | cons a t ih =>
    have ha := h a (List.mem_cons_self a t)
    simp only [List.cons_append, List.findSome?, ha]
    exact ih (fun x hx => h x (List.mem_cons_of_mem a hx))

/-- List.find? ignores a leading run on which the predicate is false. -/
theorem find?_append_false {α : Type} (g : α → Bool) (M1 M2 : List α)
    (h : ∀ x ∈ M1, g x = false) : (M1 ++ M2).find? g = M2.find? g := by
  induction M1 with
  | nil => rfl
  | cons a t ih =>
    have ha := h a (List.mem_cons_self a t)
    simp only [List.cons_append, List.find?, ha]
    exact ih (fun x hx => h x (List.mem_cons_of_mem a hx))

/-- List.findSome? is `none` when every element yields `none`. -/
theorem findSome?_eq_none_of {α β : Type} (f : α → Option β) (l : List α)
    (h : ∀ a ∈ l, f a = none) : l.findSome? f = none := by
  have := findSome?_append_none f l [] h
  simpa using this

/-- C8: auto-configuration on a non-empty listing selects the first listed
model matching the highest-ranked priority prefix; with no matching prefix it
falls back to the first listed model; on the scenario listing
`[mistral:latest, llama3.2:latest]` it selects `llama3.2:latest` and writes
provider `ollama` and that model into the environment. -/
theorem c8_model_selection :
    (∀ (ms : List OllamaModelDesc) (P1 P2 : List String) (p : String)
       (M1 M2 : List OllamaModelDesc) (m : OllamaModelDesc),
       modelPriorities = P1 ++ p :: P2 →
       (∀ q ∈ P1, ∀ x ∈ ms, jsStartsWith x.name q = false) →
       ms = M1 ++ m :: M2 →
       (∀ x ∈ M1, jsStartsWith x.name p = false) →
       jsStartsWith m.name p = true →
       selectBestModel ms = m.name) ∧
    (∀ (m : OllamaModelDesc) (rest : List OllamaModelDesc),
       (∀ q ∈ modelPriorities, ∀ x ∈ m :: rest, jsStartsWith x.name q = false) →
       m.name ≠ "" →
       selectBestModel (m :: rest) = m.name) ∧
    selectBestModel [OllamaModelDesc.mk ("mistral:latest") 1 ("d1"),
                     OllamaModelDesc.mk ("llama3.2:latest") 2 ("d2")] = "llama3.2:latest" ∧
    (∀ env : Env,
       ∃ env1, tryAutoConfigureOllama env true
           (Except.ok [OllamaModelDesc.mk ("mistral:latest") 1 ("d1"),
                       OllamaModelDesc.mk ("llama3.2:latest") 2 ("d2")]) =
           AutoConfigResult.success env1 ∧
         env1.chatCliProvider = some ("ollama") ∧
         env1.ollamaModelVar = some ("llama3.2:latest")) := by
  refine ⟨?_, ?_, by decide, ?_⟩
  · intro ms P1 P2 p M1 M2 m hP hP1 hms hM1 hm
    unfold selectBestModel
    rw [hP, findSome?_append_none _ P1 (p :: P2)
      (fun q hq => List.find?_eq_none.mpr (fun x hx => by
        rw [hP1 q hq x hx]
        exact Bool.false_ne_true))]
    have hfind : ms.find? (fun x => jsStartsWith x.name p) = some m := by
      rw [hms, find?_append_false _ M1 (m :: M2) hM1]
      simp [List.find?, hm]
    simp only [List.findSome?, hfind]
  · intro m rest h hne
    unfold selectBestModel
    rw [findSome?_eq_none_of _ modelPriorities
      (fun q hq => List.find?_eq_none.mpr (fun x hx => by
        rw [h q hq x hx]
        exact Bool.false_ne_true))]
    simp [jsOrS, hne]
  · intro env
    refine ⟨_, rfl, rfl, ?_⟩
    show some (selectBestModel _) = _
    rw [show selectBestModel [OllamaModelDesc.mk ("mistral:latest") 1 ("d1"),
      OllamaModelDesc.mk ("llama3.2:latest") 2 ("d2")] = "llama3.2:latest" from by decide]

/-- C8 witness: the priority prefix `mistral` is the highest-ranked match for
the listing `[foo, mistral:7b]`, and with no matching prefix the fallback is
the first listed model. -/
theorem c8_model_selection_witness :
    selectBestModel [OllamaModelDesc.mk ("foo") 1 ("a"),
      OllamaModelDesc.mk ("mistral:7b") 2 ("b")] = "mistral:7b" ∧
    selectBestModel [OllamaModelDesc.mk ("unknown-model") 1 ("a")] = "unknown-model" :=
  ⟨c8_model_selection.1
      [OllamaModelDesc.mk ("foo") 1 ("a"), OllamaModelDesc.mk ("mistral:7b") 2 ("b")]
      ["llama3.2", "llama3.1", "codellama", "llama3", "llama2", "phi3"] ["qwen", "gemma"]
      ("mistral") [OllamaModelDesc.mk ("foo") 1 ("a")] []
      (OllamaModelDesc.mk ("mistral:7b") 2 ("b")) (by decide) (by decide) (by decide)
      (by decide) (by decide),
   c8_model_selection.2.1 (OllamaModelDesc.mk ("unknown-model") 1 ("a")) [] (by decide)
      (by decide)⟩

/-- Concrete environment for the C9 counterexample: the user has `OLLAMA_URL`
pointing at a non-default host and `OLLAMA_HOST` unset. -/
def c9Env : Env :=
  Env.mk none none none (some ("http://example.com:1234")) none none none

/-- C9 counterexample: auto-configuration on `c9Env` succeeds and writes the
auto-selected host `http://example.com:1234` into `OLLAMA_URL`, but the facade
factory reads the host from `OLLAMA_HOST` and therefore observes the default
`http://localhost:11434` — the host is not written to the variable name the
factory reads. -/
theorem c9_counterexample :
    tryAutoConfigureOllama c9Env true (Except.ok [OllamaModelDesc.mk ("llama3.2:latest") 1 ("d")]) =
      AutoConfigResult.success (autoConfigureOllamaEnv c9Env [OllamaModelDesc.mk ("llama3.2:latest") 1 ("d")]) ∧
    (autoConfigureOllamaEnv c9Env [OllamaModelDesc.mk ("llama3.2:latest") 1 ("d")]).ollamaUrlVar =
      some ("http://example.com:1234") ∧
    createFromEnvironment (autoConfigureOllamaEnv c9Env [OllamaModelDesc.mk ("llama3.2:latest") 1 ("d")]) =
      Except.ok (ChatClientConfig.mk ("ollama")
        (some (OllamaClientCfg.mk ("http://localhost:11434") ("llama3.2:latest"))) none) ∧
    ("http://localhost:11434" : String) ≠ ("http://example.com:1234") :=
  ⟨rfl, by decide, rfl, by decide⟩

/-- C9 amended: after a successful auto-configuration the facade factory
observes the auto-selected provider and model (written to the variable names
it reads), but its host comes from the untouched `OLLAMA_HOST` variable — the
auto-selected host is written to `OLLAMA_URL`, which the factory does not
read. -/
theorem c9_amended :
    ∀ (env : Env) (models : List OllamaModelDesc),
      selectBestModel models ≠ "" →
      createFromEnvironment (autoConfigureOllamaEnv env models) =
        Except.ok (ChatClientConfig.mk ("ollama")
          (some (OllamaClientCfg.mk (jsOrS env.ollamaHostVar defaultOllamaHost)
            (selectBestModel models))) none) := by
  intro env models h
  show createFromEnvironment
      { env with chatCliProvider := some ("ollama"),
                 ollamaModelVar := some (selectBestModel models),
                 ollamaUrlVar := some (jsOrS env.ollamaUrlVar defaultOllamaHost) } = _
  unfold createFromEnvironment
  simp [jsOrS, h]

/-- C9 amended witness: a concrete environment with a custom `OLLAMA_HOST`. -/
theorem c9_amended_witness :
    createFromEnvironment (autoConfigureOllamaEnv
        (Env.mk none none (some ("http://myhost:1")) none none none none)
        [OllamaModelDesc.mk ("phi3:mini") 1 ("d")]) =
      Except.ok (ChatClientConfig.mk ("ollama")
        (some (OllamaClientCfg.mk (jsOrS (some ("http://myhost:1")) defaultOllamaHost)
          (selectBestModel [OllamaModelDesc.mk ("phi3:mini") 1 ("d")]))) none) :=
  c9_amended (Env.mk none none (some ("http://myhost:1")) none none none none)
    [OllamaModelDesc.mk ("phi3:mini") 1 ("d")] (by decide)

/-- Possible results of `createContentGenerator`: a provider generator, one of
the first-party Google generators (external), or the inline fallback
error-generator object built in the catch branch. -/
inductive CreatedGenerator
  | ollamaGen (model : String) (url : String)
  | claudeGen (apiKey : String) (model : String)
  | codeAssistGen
  | googleGenAIGen
  | fallbackGen (errMsg : String)
deriving DecidableEq

/-- Message thrown when the CLAUDE branch finds no API key in the config. -/
def claudeKeyRequiredMsg : String :=
  "CLAUDE_API_KEY is required for Claude authentication"

/-- JavaScript string interpolation of a possibly-undefined auth type. -/
def showAuthType : Option String → String
  | none => "undefined"
  | some a => a

/-- Message thrown for an unsupported auth type. -/
def unsupportedAuthMsg (a : Option String) : String :=
  "Error creating contentGenerator: Unsupported authType: " ++ showAuthType a

/-- `createContentGenerator`: dispatch on the auth type; a (synchronous) throw
in any branch is caught and turned into the fallback error generator. -/
def createContentGenerator (authType : Option String) (cfgApiKey : Option String)
    (cfgModel : String) (ollamaUrlVar : Option String) : CreatedGenerator :=
  if authType = some ("OLLAMA") then
    CreatedGenerator.ollamaGen cfgModel (jsOrS ollamaUrlVar defaultOllamaHost)
  else if authType = some ("CLAUDE") then
    match cfgApiKey with
    | none => CreatedGenerator.fallbackGen claudeKeyRequiredMsg
    | some k =>
      if k = "" then CreatedGenerator.fallbackGen claudeKeyRequiredMsg
      else CreatedGenerator.claudeGen k cfgModel
  else if authType = some ("oauth-personal") ∨ authType = some ("cloud-shell") then
    CreatedGenerator.codeAssistGen
  else if authType = some ("gemini-api-key") ∨ authType = some ("vertex-ai") then
    CreatedGenerator.googleGenAIGen
  else
    CreatedGenerator.fallbackGen (unsupportedAuthMsg authType)

/-- Leading fixed text of the fallback diagnostics. -/
def fallbackDiagHead : String := "❌ **Content Generator Error**: "

/-- Diagnostic text of the fallback generator's `generateContent`. -/
def fallbackDiagText (errMsg : String) : String :=
  fallbackDiagHead ++ errMsg ++ "\n\n**Please check your configuration and try again.**"

/-- Diagnostic text of the fallback generator's `generateContentStream`. -/
def fallbackStreamText (errMsg : String) : String :=
  fallbackDiagHead ++ errMsg

/-- `generateContent` of the fallback generator. -/
def fallbackGenerateContent (errMsg : String) : GenResponse :=
  { candidates := [{ content := { parts := [{ text := fallbackDiagText errMsg }], role := "model" },
                     finishReason := some ("STOP"), index := 0 }],
    usageMetadata := some { promptTokenCount := 0, candidatesTokenCount := 0, totalTokenCount := 0 } }

/-- `generateContentStream` of the fallback generator: a single-chunk stream. -/
def fallbackGenerateContentStream (errMsg : String) : List GenResponse :=
  [{ candidates := [{ content := { parts := [{ text := fallbackStreamText errMsg }], role := "model" },
                      finishReason := some ("STOP"), index := 0 }],
     usageMetadata := none }]

/-- `countTokens` of the fallback generator. -/
def fallbackCountTokens : Nat := 0

/-- `embedContent` of the fallback generator: always rejects. -/
def fallbackEmbedContent : Except String Unit :=
  Except.error ("Embedding not available due to configuration error")

/-- C10: `createContentGenerator` resolves to the fallback generator instead of
rejecting when the CLAUDE branch has no API key or the auth type is
unsupported, and the fallback generator's `generateContent` and
`generateContentStream` each produce a single diagnostic-marked candidate
(`generateContent` with all-zero usage), `countTokens` returns 0, and
`embedContent` rejects. -/
theorem c10_factory_fallback :
    (∀ (model : String) (url : Option String) (k : Option String),
       (k = none ∨ k = some "") →
       createContentGenerator (some ("CLAUDE")) k model url =
         CreatedGenerator.fallbackGen claudeKeyRequiredMsg) ∧
    (∀ (a : Option String) (k : Option String) (model : String) (url : Option String),
       a ≠ some ("OLLAMA") → a ≠ some ("CLAUDE") → a ≠ some ("oauth-personal") →
       a ≠ some ("cloud-shell") → a ≠ some ("gemini-api-key") → a ≠ some ("vertex-ai") →
       createContentGenerator a k model url =
         CreatedGenerator.fallbackGen (unsupportedAuthMsg a)) ∧
    (∀ e : String,
       (fallbackGenerateContent e).candidates.length = 1 ∧
       (fallbackGenerateContent e).usageMetadata =
         some (UsageMetadata.mk 0 0 0) ∧
       (∃ c rest, (fallbackGenerateContent e).candidates = [c] ∧
          c.content.parts = [GenPart.mk ("❌" ++ rest)]) ∧
       (fallbackGenerateContentStream e).length = 1 ∧
       (∃ r c rest, fallbackGenerateContentStream e = [r] ∧ r.candidates = [c] ∧
          c.content.parts = [GenPart.mk ("❌" ++ rest)]) ∧
       fallbackCountTokens = 0 ∧
       fallbackEmbedContent = Except.error ("Embedding not available due to configuration error")) := by
  have hhead : fallbackDiagHead = "❌" ++ " **Content Generator Error**: " := by decide
  have hdiag : ∀ e : String, fallbackDiagText e =
      "❌" ++ (" **Content Generator Error**: " ++
        (e ++ "\n\n**Please check your configuration and try again.**")) := by
    intro e
    unfold fallbackDiagText
    rw [hhead, String.append_assoc, String.append_assoc]
  have hstream : ∀ e : String, fallbackStreamText e =
      "❌" ++ (" **Content Generator Error**: " ++ e) := by
    intro e
    unfold fallbackStreamText
    rw [hhead, String.append_assoc]
  refine ⟨?_, ?_, ?_⟩
  · intro model url k hk
    rcases hk with h | h <;> subst h <;> rfl
  · intro a k model url h1 h2 h3 h4 h5 h6
    unfold createContentGenerator
    rw [if_neg h1, if_neg h2, if_neg ?_, if_neg ?_]
    · rintro (h | h) <;> [exact h5 h; exact h6 h]
    · rintro (h | h) <;> [exact h3 h; exact h4 h]
  · intro e
    refine ⟨rfl, rfl, ⟨_, _, rfl, by rw [hdiag e]⟩, rfl, ⟨_, _, _, rfl, rfl, by rw [hstream e]⟩,
      rfl, rfl⟩

/-- C10 witness: concrete fallback creations for a missing cloud key and for an
unrecognized auth type. -/
theorem c10_factory_fallback_witness :
    createContentGenerator (some ("CLAUDE")) none ("claude-3-5-sonnet-20241022") none =
      CreatedGenerator.fallbackGen claudeKeyRequiredMsg ∧
    createContentGenerator (some ("SOMETHING_ELSE")) none ("m") none =
      CreatedGenerator.fallbackGen (unsupportedAuthMsg (some ("SOMETHING_ELSE"))) :=
  ⟨c10_factory_fallback.1 ("claude-3-5-sonnet-20241022") none none (Or.inl rfl),
   c10_factory_fallback.2.1 (some ("SOMETHING_ELSE")) none ("m") none
     (by decide) (by decide) (by decide) (by decide) (by decide) (by decide)⟩

end AiCli
